import Mathlib

/-!
Verification of the download-job orchestration pipeline of `app.py`
(`process_download` and the engine-configuration dictionary it builds).

The yt-dlp options dictionary is embedded as an association list of
string keys to option values, built in the same order and under the same
conditions as the Python code.  The pipeline body is embedded as a function
of an `Env` record describing the behaviour of the external world (the
download engine, the archiver, the produced zip file); Python exceptions
are `Except.error`, normal returns are `Except.ok`.  The
`tempfile.TemporaryDirectory` context manager is embedded by `withTmpScope`,
which applies the unconditional teardown of a Python `with` statement to
every exit path of the body.
-/

namespace YtDownloader

/-- An entry of the `postprocessors` list of the engine options
(`app.py` lines 85-89). -/
structure PostProcessor where
  key : String
  preferredcodec : String
  preferredquality : String
deriving DecidableEq

/-- A value stored in the engine-options dictionary.  `hooks` stands for the
progress-hook list, whose contents are UI glue outside the data model. -/
inductive OptVal where
  | str (s : String)
  | bool (b : Bool)
  | nat (n : Nat)
  | pps (l : List PostProcessor)
  | hooks
deriving DecidableEq

/-- Python truthiness of the `limit` argument (`if limit:` on line 63):
`None` and `0` are falsy, every other integer is truthy. -/
def pyTruthy : Option Nat → Bool
  | none => false
  | some n => n != 0

/-- Python `s.replace("k", "")` (line 88): every occurrence of the
single-character pattern `"k"` is replaced by the empty string, i.e. every
`'k'` character of `s` is removed. -/
def pyReplaceK (s : String) : String :=
  ⟨s.data.filter (fun c => c ≠ 'k')⟩

/-- The engine-options dictionary built by `process_download`
(`app.py` lines 51-89), as an association list in insertion order:
the base options, then `playlistend` when `limit` is truthy, then the
mode-dependent configuration (video: forced mp4 merge plus a format
expression per recognised preset; otherwise: `bestaudio/best` plus an
audio-extraction post-processor). -/
def buildOpts (tmpDir mode qualityPreset audioFormat audioBitrate : String)
    (limit : Option Nat) (concurrent : Nat) : List (String × OptVal) :=
  let outTmpl := tmpDir ++ "/%(playlist_index)s - %(title)s.%(ext)s"
  let base : List (String × OptVal) :=
    [("outtmpl", OptVal.str outTmpl),
     ("progress_hooks", OptVal.hooks),
     ("ignoreerrors", OptVal.bool true),
     ("concurrent_fragment_downloads", OptVal.nat concurrent),
     ("restrictfilenames", OptVal.bool true)]
  let base :=
    if pyTruthy limit then
      base ++ [("playlistend", OptVal.nat (limit.getD 0))]
    else base
  if mode == "Video" then
    let base := base ++ [("merge_output_format", OptVal.str "mp4")]
    if qualityPreset == "Best Available" then
      base ++ [("format", OptVal.str "bestvideo+bestaudio/best")]
    else if qualityPreset == "1080p" then
      base ++ [("format", OptVal.str "bestvideo[height<=1080]+bestaudio/best[height<=1080]")]
    else if qualityPreset == "720p" then
      base ++ [("format", OptVal.str "bestvideo[height<=720]+bestaudio/best[height<=720]")]
    else if qualityPreset == "Worst (Low Data)" then
      base ++ [("format", OptVal.str "worstvideo+worstaudio/worst")]
    else
      base
  else
    base ++
      [("format", OptVal.str "bestaudio/best"),
       ("postprocessors",
        OptVal.pps [⟨"FFmpegExtractAudio", audioFormat, pyReplaceK audioBitrate⟩])]

/-- The tuple `(success, message, payload)` returned by `process_download`. -/
structure JobResult where
  success : Bool
  message : String
  payload : Option (List Nat)
deriving DecidableEq

/-- The behaviour of the external world during one pipeline invocation:
whether the ffmpeg binary is present on the host, whether the engine
invocation (`ydl.download`) raises and with what message, whether
`shutil.make_archive` raises and with what message, whether the final zip
file exists afterwards, its bytes and its size in bytes.  The temp-directory
path is the one `tempfile.TemporaryDirectory` allocates. -/
structure Env where
  ffmpegPresent : Bool
  tmpDirPath : String
  engineError : Option String
  archiveError : Option String
  zipExists : Bool
  zipData : List Nat
  zipSize : Nat
deriving DecidableEq

/-- The observable state left behind by one invocation: whether the temporary
directory still exists, and how many times the download engine was invoked. -/
structure RunState where
  tmpDirExists : Bool
  engineCalls : Nat
deriving DecidableEq

/-- The body of the `with tempfile.TemporaryDirectory()` block
(`app.py` lines 50-110): build the options, invoke the engine exactly once
(an engine exception is caught and returned as a failure result, line 95-96),
create the archive (line 101; an exception here is not caught), then read the
zip into memory if it exists, else return the defensive failure
(lines 104-110).  The returned `Nat` counts engine invocations. -/
def pipelineBody (env : Env)
    (url mode qualityPreset audioFormat audioBitrate : String)
    (limit : Option Nat) (concurrent : Nat) :
    Except String JobResult × Nat :=
  let _opts := buildOpts env.tmpDirPath mode qualityPreset audioFormat audioBitrate
    limit concurrent
  let _url := url
  match env.engineError with
  | some e => (Except.ok ⟨false, e, none⟩, 1)
  | none =>
    match env.archiveError with
    | some e => (Except.error e, 1)
    | none =>
      if env.zipExists then
        (Except.ok ⟨true, "Success", some env.zipData⟩, 1)
      else
        (Except.ok ⟨false, "Zip file creation failed.", none⟩, 1)

/-- Semantics of `with tempfile.TemporaryDirectory() as tmp_dir:` wrapped
around a body: the directory is created, the body runs (returning a value or
raising), and the context manager removes the directory on every exit path,
normal or exceptional, before control leaves the statement. -/
def withTmpScope (body : Except String JobResult × Nat) :
    Except String JobResult × RunState :=
  (body.1, ⟨false, body.2⟩)

/-- The full `process_download` (`app.py` lines 43-110): the pipeline body
run inside the temporary-directory scope. -/
def process_download (env : Env)
    (url mode qualityPreset audioFormat audioBitrate : String)
    (limit : Option Nat) (concurrent : Nat) :
    Except String JobResult × RunState :=
  withTmpScope (pipelineBody env url mode qualityPreset audioFormat audioBitrate
    limit concurrent)

/-! ## Claim C1 (size guard) -/

/-- Claim C1 counterexample: the claim states the pipeline returns Failure
iff the archive size S exceeds the ceiling C, and that for S > C the archive
is never loaded into memory.  With an archive of S = 600 MB and the spec's
example ceiling C = 550 MB, the pipeline nevertheless returns Success and
the archive bytes are loaded into memory as the payload: the code performs
no size check at all. -/
theorem C1_size_guard_counterexample :
    (600 * 1048576 : Nat) > 550 * 1048576 ∧
    (process_download ⟨true, "/tmp/work", none, none, true, [80, 75, 3, 4], 600 * 1048576⟩
        "https://example.com/playlist" "Video" "720p" "mp3" "192k" none 4).1 =
      Except.ok ⟨true, "Success", some [80, 75, 3, 4]⟩ :=
  ⟨by norm_num, rfl⟩

/-- Claim C1 (amended): the pipeline performs no size check.  Whenever the
engine and the archiver complete and the zip file exists, the pipeline loads
the archive fully into memory and returns Success, whatever the archive's
size; the entire invocation is independent of the archive size, and an
"artifact too large" failure is never produced. -/
theorem C1_no_size_guard (env : Env) (u m qp af ab : String) (l : Option Nat) (c : Nat)
    (he : env.engineError = none) (ha : env.archiveError = none)
    (hz : env.zipExists = true) :
    (process_download env u m qp af ab l c).1 =
      Except.ok ⟨true, "Success", some env.zipData⟩ ∧
    ∀ s : Nat, process_download { env with zipSize := s } u m qp af ab l c =
      process_download env u m qp af ab l c := by
  obtain ⟨f, t, ee, ae, ze, zd, zs⟩ := env
  simp only at he ha hz
  subst he ha hz
  exact ⟨rfl, fun s => rfl⟩

/-- Claim C1 witness: `C1_no_size_guard` applied at a concrete environment,
with the size instantiated at 5 bytes. -/
theorem C1_no_size_guard_witness :
    (process_download ⟨true, "/tmp/w", none, none, true, [1, 2], 777⟩
        "u" "Audio" "q" "mp3" "192k" none 2).1 =
      Except.ok ⟨true, "Success", some [1, 2]⟩ ∧
    process_download { (⟨true, "/tmp/w", none, none, true, [1, 2], 777⟩ : Env) with
        zipSize := 5 } "u" "Audio" "q" "mp3" "192k" none 2 =
      process_download ⟨true, "/tmp/w", none, none, true, [1, 2], 777⟩
        "u" "Audio" "q" "mp3" "192k" none 2 :=
  ⟨(C1_no_size_guard ⟨true, "/tmp/w", none, none, true, [1, 2], 777⟩
      "u" "Audio" "q" "mp3" "192k" none 2 rfl rfl rfl).1,
   (C1_no_size_guard ⟨true, "/tmp/w", none, none, true, [1, 2], 777⟩
      "u" "Audio" "q" "mp3" "192k" none 2 rfl rfl rfl).2 5⟩

/-! ## Claim C2 (missing-dependency check) -/

/-- Claim C2 counterexample: the claim states that when ffmpeg is absent the
pipeline fails immediately with a missing-dependency error before any engine
invocation.  With ffmpeg absent, the engine is nevertheless invoked (once)
and the pipeline returns Success: no dependency check exists. -/
theorem C2_dependency_check_counterexample :
    (process_download ⟨false, "/tmp/work", none, none, true, [80, 75], 1024⟩
        "https://example.com/v" "Video" "720p" "mp3" "192k" none 4).2.engineCalls = 1 ∧
    (process_download ⟨false, "/tmp/work", none, none, true, [80, 75], 1024⟩
        "https://example.com/v" "Video" "720p" "mp3" "192k" none 4).1 =
      Except.ok ⟨true, "Success", some [80, 75]⟩ :=
  ⟨rfl, rfl⟩

/-- Claim C2 (amended): the pipeline performs no ffmpeg presence check: the
download engine is invoked exactly once on every invocation, and the entire
result is independent of whether ffmpeg is present on the host.  An
ffmpeg-related problem can surface only through the generic engine exception
handler. -/
theorem C2_no_dependency_check (env : Env) (u m qp af ab : String) (l : Option Nat)
    (c : Nat) (b : Bool) :
    (process_download env u m qp af ab l c).2.engineCalls = 1 ∧
    process_download { env with ffmpegPresent := b } u m qp af ab l c =
      process_download env u m qp af ab l c := by
  obtain ⟨f, t, ee, ae, ze, zd, zs⟩ := env
  constructor
  · cases ee <;> cases ae <;> cases ze <;> rfl
  · rfl

/-! ## Claim C3 (archiving-stage error handling) -/

/-- Claim C3 counterexample: the claim states an archive-creation failure is
caught at the archiving stage boundary and returned as a classified failure
result.  When `shutil.make_archive` raises "Permission denied", the
exception escapes `process_download` uncaught (the `try` block only wraps
the engine invocation). -/
theorem C3_archiving_counterexample :
    (process_download ⟨true, "/tmp/work", none, some "Permission denied", false, [], 0⟩
        "https://example.com/v" "Video" "720p" "mp3" "192k" none 4).1 =
      Except.error "Permission denied" :=
  rfl

/-- Claim C3 (amended): an exception raised during archive creation is not
caught: it propagates out of the pipeline uncaught, carrying the original
message; the temporary working directory is still removed on that exit
path. -/
theorem C3_archive_error_uncaught (env : Env) (u m qp af ab : String)
    (l : Option Nat) (c : Nat) (msg : String)
    (he : env.engineError = none) (ha : env.archiveError = some msg) :
    (process_download env u m qp af ab l c).1 = Except.error msg ∧
    (process_download env u m qp af ab l c).2.tmpDirExists = false := by
  obtain ⟨f, t, ee, ae, ze, zd, zs⟩ := env
  simp only at he ha
  subst he ha
  exact ⟨rfl, rfl⟩

/-- Claim C3 witness: `C3_archive_error_uncaught` applied at a concrete
environment whose archiver raises "disk full". -/
theorem C3_archive_error_uncaught_witness :
    (process_download ⟨true, "/tmp/w", none, some "disk full", false, [], 0⟩
        "u" "Video" "1080p" "mp3" "192k" (some 3) 2).1 = Except.error "disk full" ∧
    (process_download ⟨true, "/tmp/w", none, some "disk full", false, [], 0⟩
        "u" "Video" "1080p" "mp3" "192k" (some 3) 2).2.tmpDirExists = false :=
  C3_archive_error_uncaught ⟨true, "/tmp/w", none, some "disk full", false, [], 0⟩
    "u" "Video" "1080p" "mp3" "192k" (some 3) 2 "disk full" rfl rfl

/-! ## Claim C4 (video-mode format mapping) -/

/-- Claim C4: for each of the four video quality presets the configuration
contains the corresponding format-selection expression ("Best Available" →
best video+audio with fallback to best combined; "1080p"/"720p" → the same
capped at that height; "Worst (Low Data)" → worst video+audio with fallback
to worst combined), and every video-mode configuration, whatever the
preset, contains the forced merge into an mp4 container. -/
theorem C4_video_format_mapping (t af ab : String) (l : Option Nat) (c : Nat) :
    List.lookup "format" (buildOpts t "Video" "Best Available" af ab l c) =
      some (OptVal.str "bestvideo+bestaudio/best") ∧
    List.lookup "format" (buildOpts t "Video" "1080p" af ab l c) =
      some (OptVal.str "bestvideo[height<=1080]+bestaudio/best[height<=1080]") ∧
    List.lookup "format" (buildOpts t "Video" "720p" af ab l c) =
      some (OptVal.str "bestvideo[height<=720]+bestaudio/best[height<=720]") ∧
    List.lookup "format" (buildOpts t "Video" "Worst (Low Data)" af ab l c) =
      some (OptVal.str "worstvideo+worstaudio/worst") ∧
    ∀ qp : String,
      List.lookup "merge_output_format" (buildOpts t "Video" qp af ab l c) =
        some (OptVal.str "mp4") := by
  refine ⟨?_, ?_, ?_, ?_, ?_⟩
  · cases h : pyTruthy l <;> simp [buildOpts, h, List.lookup]
  · cases h : pyTruthy l <;> simp [buildOpts, h, List.lookup]
  · cases h : pyTruthy l <;> simp [buildOpts, h, List.lookup]
  · cases h : pyTruthy l <;> simp [buildOpts, h, List.lookup]
  · intro qp
    cases h : pyTruthy l <;>
      rcases h1 : qp == "Best Available" <;>
      rcases h2 : qp == "1080p" <;>
      rcases h3 : qp == "720p" <;>
      rcases h4 : qp == "Worst (Low Data)" <;>
      simp [buildOpts, h, h1, h2, h3, h4, List.lookup]

/-! ## Claim C5 (audio-mode configuration) -/

/-- Claim C5: every audio-mode configuration selects `bestaudio/best` and
attaches an `FFmpegExtractAudio` post-processing directive converting to the
requested codec at the requested quality, where the quality is the requested
bitrate string with its trailing "k" stripped (for each of the bitrates the
interface offers). -/
theorem C5_audio_config (t qp af ab : String) (l : Option Nat) (c : Nat)
    (hab : ab = "192k" ∨ ab = "320k" ∨ ab = "128k") :
    List.lookup "format" (buildOpts t "Audio" qp af ab l c) =
      some (OptVal.str "bestaudio/best") ∧
    List.lookup "postprocessors" (buildOpts t "Audio" qp af ab l c) =
      some (OptVal.pps [⟨"FFmpegExtractAudio", af, ab.dropRight 1⟩]) := by
  rcases hab with hab | hab | hab <;> subst hab <;>
    cases h : pyTruthy l <;> simp [buildOpts, h, List.lookup, pyReplaceK] <;> decide

/-- Claim C5 witness: `C5_audio_config` applied with bitrate "192k". -/
theorem C5_audio_config_witness :
    List.lookup "format" (buildOpts "/tmp/w" "Audio" "" "mp3" "192k" none 4) =
      some (OptVal.str "bestaudio/best") ∧
    List.lookup "postprocessors" (buildOpts "/tmp/w" "Audio" "" "mp3" "192k" none 4) =
      some (OptVal.pps [⟨"FFmpegExtractAudio", "mp3", "192k".dropRight 1⟩]) :=
  C5_audio_config "/tmp/w" "" "mp3" "192k" none 4 (Or.inl rfl)

/-! ## Claim C6 (engine configuration flags) -/

/-- Claim C6 counterexample: the claim states the configuration suppresses
verbose engine logging.  The configuration built for a representative
request is exactly the listed dictionary, which contains no logging-related
key at all: in particular `quiet`, `no_warnings` and `verbose` are all
absent. -/
theorem C6_logging_counterexample :
    buildOpts "/tmp/work" "Video" "720p" "mp3" "192k" (some 5) 4 =
      [("outtmpl", OptVal.str "/tmp/work/%(playlist_index)s - %(title)s.%(ext)s"),
       ("progress_hooks", OptVal.hooks),
       ("ignoreerrors", OptVal.bool true),
       ("concurrent_fragment_downloads", OptVal.nat 4),
       ("restrictfilenames", OptVal.bool true),
       ("playlistend", OptVal.nat 5),
       ("merge_output_format", OptVal.str "mp4"),
       ("format", OptVal.str "bestvideo[height<=720]+bestaudio/best[height<=720]")] ∧
    List.lookup "quiet" (buildOpts "/tmp/work" "Video" "720p" "mp3" "192k" (some 5) 4) =
      none ∧
    List.lookup "no_warnings"
      (buildOpts "/tmp/work" "Video" "720p" "mp3" "192k" (some 5) 4) = none ∧
    List.lookup "verbose"
      (buildOpts "/tmp/work" "Video" "720p" "mp3" "192k" (some 5) 4) = none :=
  ⟨rfl, rfl, rfl, rfl⟩

/-- Claim C6 (amended): every configuration sets error tolerance
(`ignoreerrors` = true), bounds fragment-level parallelism to the requested
concurrency, and sets the item-count ceiling `playlistend` to the limit
exactly when the limit is present and nonzero; but it contains no
logging-suppression setting (`quiet`, `no_warnings` and `verbose` are all
absent), so the engine's default log verbosity is used. -/
theorem C6_engine_flags (t m qp af ab : String) (l : Option Nat) (c : Nat) :
    List.lookup "ignoreerrors" (buildOpts t m qp af ab l c) =
      some (OptVal.bool true) ∧
    List.lookup "concurrent_fragment_downloads" (buildOpts t m qp af ab l c) =
      some (OptVal.nat c) ∧
    List.lookup "playlistend" (buildOpts t m qp af ab l c) =
      (if pyTruthy l then some (OptVal.nat (l.getD 0)) else none) ∧
    List.lookup "quiet" (buildOpts t m qp af ab l c) = none ∧
    List.lookup "no_warnings" (buildOpts t m qp af ab l c) = none ∧
    List.lookup "verbose" (buildOpts t m qp af ab l c) = none := by
  cases h : pyTruthy l <;>
    rcases hm : m == "Video" <;>
    rcases h1 : qp == "Best Available" <;>
    rcases h2 : qp == "1080p" <;>
    rcases h3 : qp == "720p" <;>
    rcases h4 : qp == "Worst (Low Data)" <;>
    simp [buildOpts, h, hm, h1, h2, h3, h4, List.lookup]

/-! ## Claim C7 (working-area teardown) -/

/-- Claim C7: on every invocation, whatever the environment's behaviour —
success, engine failure caught as a classified result, missing zip, or an
uncaught archiver exception — the temporary working directory no longer
exists when the pipeline exits. -/
theorem C7_tmpdir_always_removed (env : Env) (u m qp af ab : String)
    (l : Option Nat) (c : Nat) :
    (process_download env u m qp af ab l c).2.tmpDirExists = false :=
  rfl

/-! ## Claim C8 (engine errors propagated verbatim) -/

/-- Claim C8: when the download engine raises with message `msg`, the
pipeline returns a Failure result carrying exactly `msg` with no payload,
and the engine was invoked exactly once (no retry). -/
theorem C8_engine_error_propagated (env : Env) (u m qp af ab : String)
    (l : Option Nat) (c : Nat) (msg : String)
    (he : env.engineError = some msg) :
    (process_download env u m qp af ab l c).1 = Except.ok ⟨false, msg, none⟩ ∧
    (process_download env u m qp af ab l c).2.engineCalls = 1 := by
  obtain ⟨f, t, ee, ae, ze, zd, zs⟩ := env
  simp only at he
  subst he
  exact ⟨rfl, rfl⟩

/-- Claim C8 witness: `C8_engine_error_propagated` applied at a concrete
environment whose engine raises "HTTP Error 404". -/
theorem C8_engine_error_propagated_witness :
    (process_download ⟨true, "/tmp/w", some "HTTP Error 404", none, false, [], 0⟩
        "u" "Video" "720p" "mp3" "192k" none 4).1 =
      Except.ok ⟨false, "HTTP Error 404", none⟩ ∧
    (process_download ⟨true, "/tmp/w", some "HTTP Error 404", none, false, [], 0⟩
        "u" "Video" "720p" "mp3" "192k" none 4).2.engineCalls = 1 :=
  C8_engine_error_propagated ⟨true, "/tmp/w", some "HTTP Error 404", none, false, [], 0⟩
    "u" "Video" "720p" "mp3" "192k" none 4 "HTTP Error 404" rfl

/-! ## Claim C9 (result materializer) -/

/-- Claim C9: when the engine and the archiver both complete, the pipeline
returns { Success, "Success", zip bytes } if the zip file exists and
{ Failure, "Zip file creation failed.", no payload } if it does not; and for
every result the pipeline returns (on any path), the payload is present iff
the status is Success. -/
theorem C9_result_materializer (env : Env) (u m qp af ab : String)
    (l : Option Nat) (c : Nat)
    (he : env.engineError = none) (ha : env.archiveError = none) :
    ((env.zipExists = true →
        (process_download env u m qp af ab l c).1 =
          Except.ok ⟨true, "Success", some env.zipData⟩) ∧
     (env.zipExists = false →
        (process_download env u m qp af ab l c).1 =
          Except.ok ⟨false, "Zip file creation failed.", none⟩)) ∧
    ∀ r : JobResult, (process_download env u m qp af ab l c).1 = Except.ok r →
      (r.payload.isSome ↔ r.success = true) := by
  obtain ⟨f, t, ee, ae, ze, zd, zs⟩ := env
  simp only at he ha
  subst he ha
  cases ze <;> simp [process_download, withTmpScope, pipelineBody]

/-- Claim C9 witness: `C9_result_materializer` applied at a concrete
environment where the zip exists with bytes `[9]`, together with the
payload-iff-success equivalence instantiated at that result. -/
theorem C9_result_materializer_witness :
    (process_download ⟨true, "/tmp/w", none, none, true, [9], 3⟩
        "u" "Audio" "" "mp3" "192k" none 2).1 =
      Except.ok ⟨true, "Success", some [9]⟩ ∧
    ((⟨true, "Success", some [9]⟩ : JobResult).payload.isSome ↔
      (⟨true, "Success", some [9]⟩ : JobResult).success = true) :=
  ⟨((C9_result_materializer ⟨true, "/tmp/w", none, none, true, [9], 3⟩
      "u" "Audio" "" "mp3" "192k" none 2 rfl rfl).1).1 rfl,
   (C9_result_materializer ⟨true, "/tmp/w", none, none, true, [9], 3⟩
      "u" "Audio" "" "mp3" "192k" none 2 rfl rfl).2 ⟨true, "Success", some [9]⟩ rfl⟩

/-! ## Claim C10 (silent dispatch fallthrough) -/

/-- Claim C10: a video-mode request whose preset is none of the four
recognised values gets a configuration with the forced mp4 merge but no
format key at all (silent fallthrough, no "no such preset" error), and any
mode value other than "Video" — not only "Audio" — takes the audio-mode
configuration path. -/
theorem C10_dispatch_fallthrough (t qp m af ab : String) (l : Option Nat) (c : Nat)
    (h1 : qp ≠ "Best Available") (h2 : qp ≠ "1080p") (h3 : qp ≠ "720p")
    (h4 : qp ≠ "Worst (Low Data)") (hm : m ≠ "Video") :
    (List.lookup "format" (buildOpts t "Video" qp af ab l c) = none ∧
     List.lookup "merge_output_format" (buildOpts t "Video" qp af ab l c) =
       some (OptVal.str "mp4")) ∧
    (List.lookup "format" (buildOpts t m qp af ab l c) =
       some (OptVal.str "bestaudio/best") ∧
     List.lookup "postprocessors" (buildOpts t m qp af ab l c) =
       some (OptVal.pps [⟨"FFmpegExtractAudio", af, pyReplaceK ab⟩])) := by
  refine ⟨⟨?_, ?_⟩, ?_, ?_⟩ <;>
    cases h : pyTruthy l <;>
      simp [buildOpts, h, h1, h2, h3, h4, hm, List.lookup]

/-- Claim C10 witness: `C10_dispatch_fallthrough` applied with the
unrecognised preset "480p" and the mode "audio" (which is not "Audio"). -/
theorem C10_dispatch_fallthrough_witness :
    (List.lookup "format" (buildOpts "/tmp/w" "Video" "480p" "mp3" "192k" none 4) =
       none ∧
     List.lookup "merge_output_format"
       (buildOpts "/tmp/w" "Video" "480p" "mp3" "192k" none 4) =
       some (OptVal.str "mp4")) ∧
    (List.lookup "format" (buildOpts "/tmp/w" "audio" "480p" "mp3" "192k" none 4) =
       some (OptVal.str "bestaudio/best") ∧
     List.lookup "postprocessors"
       (buildOpts "/tmp/w" "audio" "480p" "mp3" "192k" none 4) =
       some (OptVal.pps [⟨"FFmpegExtractAudio", "mp3", pyReplaceK "192k"⟩])) :=
  C10_dispatch_fallthrough "/tmp/w" "480p" "audio" "mp3" "192k" none 4
    (by decide) (by decide) (by decide) (by decide) (by decide)

end YtDownloader
